import Mathlib

/-!
Shallow embedding of `src/pyChatGPT/pyChatGPT.py` (class `ChatGPT`).

Python strings are modelled as Lean `String`s.  The Python string
operations the code uses (slicing `s[k:]`, containment `in`,
`s.split(sep)`, `s.replace(old, new)`) are implemented over the
character list `String.data` by structural recursion, so that every
definition evaluates inside the kernel.

External effects (the Selenium driver, the rendered DOM, the network
log, the `markdownify` library) are modelled as explicit inputs: each
poll of the page is a record of what the `find_elements` calls would
return, the browser's window handles are an explicit state, and
exceptions are `Except.error` values.
-/

deriving instance DecidableEq for Except

namespace PyChatGPT

/-- Python truthiness of an optional string argument
(`None` and the empty string are falsy). -/
def pyTruthy : Option String → Bool
  | none => false
  | some s => !(s == "")

/-- Python substring containment `needle in hay` on character lists. -/
def hasSubstr (needle : List Char) : List Char → Bool
  | [] => needle.isPrefixOf []
  | hay@(_ :: rest) => needle.isPrefixOf hay || hasSubstr needle rest

/-- Python substring containment `needle in hay` on strings. -/
def strContains (needle hay : String) : Bool :=
  hasSubstr needle.data hay.data

/-- Python `s.split(sep)` for a one-character separator.
Always returns a non-empty list, like Python `str.split`. -/
def pySplit (sep : Char) : List Char → List (List Char)
  | [] => [[]]
  | c :: rest =>
    match pySplit sep rest with
    | [] => [[]]
    | h :: t => if c == sep then [] :: h :: t else (c :: h) :: t

/-- Fuel-indexed worker for Python `s.replace(old, new)`: each step
either copies one character or consumes one occurrence of `old`
(which is non-empty at the call site), so `fuel = s.length` computes
the full replacement. -/
def pyReplaceFuel (old new : List Char) : Nat → List Char → List Char
  | _, [] => []
  | 0, l => l
  | fuel + 1, l@(c :: rest) =>
    if !old.isEmpty && old.isPrefixOf l then
      new ++ pyReplaceFuel old new fuel (l.drop old.length)
    else
      c :: pyReplaceFuel old new fuel rest

/-- Python `s.replace(old, new)` (replaces every occurrence). -/
def pyReplace (s old new : String) : String :=
  ⟨pyReplaceFuel old.data new.data s.data.length s.data⟩

/-- Python slicing `content[len(prev):]`, by characters. -/
def pyDropLen (prev content : String) : String :=
  ⟨content.data.drop prev.data.length⟩

/-- Concatenation of a list of emitted fragments. -/
def concatFrags (frags : List String) : String :=
  ⟨(frags.map String.data).flatten⟩

/-! ### Response Watcher (`ChatGPT.__stream_message`) -/

/-- One iteration's view of the rendered page inside the
`__stream_message` loop (and the response-extraction part of
`send_message`):
* `streaming`: whether `find_elements(chatgpt_streaming)` was non-empty
  (the `result-streaming` marker is present);
* `bigClass`: `str(response.get_attribute("class"))` of the last
  `chatgpt_big_response` element, `none` when that list is empty;
* `bigText`: the `.text` of that element (the displayed error message);
* `smallTexts`: the `.text` of each `chatgpt_small_response` element. -/
structure Poll where
  streaming : Bool
  bigClass : Option String
  bigText : String
  smallTexts : List String
  deriving Repr, DecidableEq

/-- `"text-red" in str(response.get_attribute("class"))` for the last
big-response element; `false` when there is no big-response element
(then the code performs no error check at all). -/
def errorStyled : Option String → Bool
  | none => false
  | some c => strContains "text-red" c

/-- The text the watcher reads from a poll:
`driver.find_elements(*chatgpt_small_response)[-1].text`
(defaulting to `""`; the real read raises `IndexError` on an empty
list, which `streamMessage` models separately). -/
def pollText (p : Poll) : String :=
  p.smallTexts.getLastD ""

/-- The fragments yielded by `ChatGPT.__stream_message` over a finite
sequence of polls, starting from watermark `prev` (`prev_content`,
initially `""`).  Each iteration checks the error style of the last
big-response element (raising `ValueError(response.text)`, modelled as
`Except.error`), reads the last small-response text (an empty element
list raises `IndexError`), yields `content[len(prev_content):]` when
the text changed, and breaks once the streaming marker was absent. -/
def streamMessage (prev : String) : List Poll → Except String (List String)
  | [] => .ok []
  | p :: ps =>
    if errorStyled p.bigClass then .error p.bigText
    else
      match p.smallTexts.getLast? with
      | none => .error "IndexError"
      | some content =>
        if content == prev then
          if p.streaming then streamMessage prev ps else .ok []
        else
          if p.streaming then
            (streamMessage content ps).map (fun fs => pyDropLen prev content :: fs)
          else .ok [pyDropLen prev content]

/-- The last poll of a trace (junk value on the empty trace). -/
def lastPoll : List Poll → Poll
  | [] => ⟨false, none, "", []⟩
  | [p] => p
  | _ :: q :: ps => lastPoll (q :: ps)

/-- Each poll's text is a prefix of the next one's (incremental
rendering). -/
def prefixChain : List Poll → Bool
  | [] => true
  | [_] => true
  | p :: q :: ps =>
    (pollText p).data.isPrefixOf (pollText q).data && prefixChain (q :: ps)

/-- The streaming marker is present on every poll except the last
(so the generator's loop consumes exactly this trace). -/
def stopsAtEnd : List Poll → Bool
  | [] => true
  | [p] => !p.streaming
  | p :: q :: ps => p.streaming && stopsAtEnd (q :: ps)

/-! ### Message sending (`ChatGPT.send_message`) -/

/-- `"https://chat.openai.com/backend-api/conversation/gen_title"`. -/
def genTitleUrl : String :=
  "https://chat.openai.com/backend-api/conversation/gen_title"

/-- Conversation-id recovery in `send_message` (only used when no
conversation id is stored): scan the performance-log request URLs for
the first one containing the `gen_title` endpoint and take
`url.split("/")[-1]`; `""` when no entry matches. -/
def recoverConversationId (logUrls : List String) : String :=
  match logUrls.find? (fun u => strContains genTitleUrl u) with
  | some u => ⟨(pySplit '/' u.data).getLastD []⟩
  | none => ""

/-- The environment `send_message` runs against:
* `cf`: outcome of the `self.__ensure_cf()` call at the top;
* `streamCleared`: whether the 120-second
  `WebDriverWait(...).until_not(chatgpt_streaming)` succeeded
  (on failure a `TimeoutException` propagates);
* `bigClass`, `bigText`: class attribute and text of the last
  `chatgpt_big_response` element (`bigClass = none` when none exist);
* `smallInner`: `innerHTML` of the last `chatgpt_small_response`
  element, `none` when that list is empty (then `content = ""`);
* `md`: the external `markdownify` library;
* `logUrls`: the request URLs found in the performance log. -/
structure SendEnv where
  cf : Except String Unit
  streamCleared : Bool
  bigClass : Option String
  bigText : String
  smallInner : Option String
  md : String → String
  logUrls : List String

/-- `ChatGPT.send_message(message, stream)`, returning the Python dict
as an association list.  The streamed branch iterates
`__stream_message` (printing each fragment) and returns `{}`; the
non-streamed branch waits for the streaming marker to clear, raises
`ValueError` on an error-styled response, extracts
`markdownify(innerHTML).replace("Copy code`", "`")`, recovers the
conversation id when none is stored, and returns
`{"message": content, "conversation_id": cid}`. -/
def sendMessage (conversationId : String) (env : SendEnv) (polls : List Poll)
    (stream : Bool) : Except String (List (String × String)) :=
  match env.cf with
  | .error e => .error e
  | .ok _ =>
    if stream then
      match streamMessage "" polls with
      | .error e => .error e
      | .ok _ => .ok []
    else if !env.streamCleared then
      .error "TimeoutException"
    else if errorStyled env.bigClass then
      .error env.bigText
    else
      let content :=
        match env.smallInner with
        | some inner => pyReplace (env.md inner) "Copy code`" "`"
        | none => ""
      let cid :=
        if conversationId == "" then recoverConversationId env.logUrls
        else conversationId
      .ok [("message", content), ("conversation_id", cid)]

/-! ### Challenge Gate (`ChatGPT.__ensure_cf`) and login (`ChatGPT.__login`) -/

/-- The browser's window state: the open window handles (in creation
order), the handle `switch_to` last selected (possibly already closed),
and the next fresh handle. -/
structure Browser where
  handles : List Nat
  current : Nat
  next : Nat
  deriving Repr, DecidableEq

/-- Well-formed browser state: every open handle is below the fresh
counter and the selected handle is open. -/
def BrowserWF (b : Browser) : Prop :=
  (∀ h ∈ b.handles, h < b.next) ∧ b.current ∈ b.handles

/-- `driver.switch_to.new_window("tab")`: opens a fresh tab and makes
it current. -/
def newTab (b : Browser) : Browser :=
  ⟨b.handles ++ [b.next], b.next, b.next + 1⟩

/-- `driver.close()`: closes the current window (the handle stays
selected until the next `switch_to`). -/
def closeTab (b : Browser) : Browser :=
  ⟨b.handles.filter (fun h => h != b.current), b.current, b.next⟩

/-- `driver.switch_to.window(h)`. -/
def switchTo (b : Browser) (h : Nat) : Browser :=
  ⟨b.handles, h, b.next⟩

/-- The three `ValueError`/`TimeoutException` failures that can escape
`__ensure_cf`. -/
inductive CfError
  | challengeFailed
  | invalidSession
  | loginFailed
  deriving Repr, DecidableEq

/-- The environment `__ensure_cf` runs against:
* `clears k`: whether the 10-second wait for the `challenge-form`
  marker to disappear succeeds on the attempt that has `k` retries
  left;
* `sessionOk`: the session-endpoint body parses to non-empty JSON
  without the `RefreshAccessTokenError` marker;
* `authConfigured`: `self.__auth_type` is truthy;
* `loginOk`: the interactive login reaches the logged-in marker within
  its bound. -/
structure CfEnv where
  clears : Nat → Bool
  sessionOk : Bool
  authConfigured : Bool
  loginOk : Bool

/-- `ChatGPT.__login`, reduced to its window discipline: it opens a
fresh tab, runs the Auth0 flow there, and on success closes the tab
and switches back to the handle that was current when it started; on
failure it saves a screenshot and re-raises with its tab still open. -/
def loginTab (env : CfEnv) (b : Browser) : Except (CfError × Browser) Browser :=
  let orig := b.current
  let b1 := newTab b
  if env.loginOk then .ok (switchTo (closeTab b1) orig)
  else .error (.loginFailed, b1)

/-- `ChatGPT.__ensure_cf(retry)`: opens a new tab, fetches the session
endpoint, waits for the challenge marker to clear; on timeout it
retries (closing the tab and switching back first) while retries
remain and otherwise raises `ValueError("Cloudflare challenge failed")`
with the tab still open; after the challenge it validates the session
body, raising `ValueError("Invalid session token")` when it is invalid
and no auth type is configured, or running the interactive login; the
final tab close and switch-back only run on the non-raising path.
Returns (number of challenge attempts, outcome); every `Except.error`
carries the browser state at the moment of the raise. -/
def ensureCf (env : CfEnv) (retry : Nat) (b : Browser) :
    Nat × Except (CfError × Browser) Browser :=
  let orig := b.current
  let b1 := newTab b
  if env.clears retry then
    if !env.sessionOk && !env.authConfigured then
      (1, .error (.invalidSession, b1))
    else if !env.sessionOk then
      match loginTab env b1 with
      | .ok b2 => (1, .ok (switchTo (closeTab b2) orig))
      | .error e => (1, .error e)
    else
      (1, .ok (switchTo (closeTab b1) orig))
  else
    match retry with
    | r + 1 =>
      let res := ensureCf env r (switchTo (closeTab b1) orig)
      (res.1 + 1, res.2)
    | 0 => (1, .error (.challengeFailed, b1))

/-! ### Capacity Waiter (`ChatGPT.__check_capacity`) -/

/-- `ChatGPT.__check_capacity(target_url)`: loop a 3-second wait for
the capacity banner; when found, `driver.get(target_url)` and repeat;
when the wait times out, break.  `found i` tells whether poll `i`
finds the banner.  The loop has no retry limit, so the model is
fuel-indexed: `some navs` means the loop returned, having issued the
navigations `navs`; `none` means the fuel ran out with the loop still
going. -/
def checkCapacity (found : Nat → Bool) (target : String) :
    Nat → Nat → Option (List String)
  | _, 0 => none
  | i, fuel + 1 =>
    if found i then
      (checkCapacity found target (i + 1) fuel).map (fun navs => target :: navs)
    else some []

/-! ### Session Keeper (`ChatGPT.__keep_alive`) -/

/-- `ChatGPT.__keep_alive`: `while self.__is_active:` write the
session payload into local storage (any exception is caught and
logged), then sleep 60.  `active i` is the `__is_active` flag as read
at the top of iteration `i`; `deliver i` is the outcome of the
`execute_script` delivery attempt.  Iteration `i` runs at time
`60 * i` relative to the loop's start.  Fuel-indexed: returns the
times of the delivery attempts made, paired with `true` when the loop
exited because the flag was cleared (and `false` when the fuel ran
out with the loop still running). -/
def keepAlive (active : Nat → Bool) (deliver : Nat → Except String Unit) :
    Nat → Nat → List Nat × Bool
  | _, 0 => ([], false)
  | i, fuel + 1 =>
    if active i then
      match deliver i with
      | .ok _ =>
        let rest := keepAlive active deliver (i + 1) fuel
        (60 * i :: rest.1, rest.2)
      | .error _ =>
        let rest := keepAlive active deliver (i + 1) fuel
        (60 * i :: rest.1, rest.2)
    else ([], true)

/-! ### Constructor validation (`ChatGPT.__init__`, lines 94-109) -/

/-- The constructor arguments the validation block looks at.
`sessionToken`, `email`, `password`, `authType`, `proxy` default to
`None`; `captchaSolver` defaults to `"pypasser"` but `None` is
accepted; `solverApikey` defaults to `""`. -/
structure Config where
  sessionToken : Option String
  email : Option String
  password : Option String
  authType : Option String
  captchaSolver : Option String
  solverApikey : String
  proxy : Option String
  deriving Repr, DecidableEq

/-- The five `ValueError`s of the validation block, in source order. -/
inductive ConfigError
  | missingCredentials
  | invalidAuthType
  | invalidCaptchaSolver
  | missingSolverApikey
  | invalidProxyFormat
  deriving Repr, DecidableEq

/-- The scheme alternatives of the proxy pattern
`(https?|socks(4|5)?)`, fully expanded. -/
def proxySchemes : List (List Char) :=
  ["https", "http", "socks4", "socks5", "socks"].map String.data

/-- Searches `l` for `:` followed by a digit, skipping any run of
non-newline characters first (the `.` of the pattern does not match a
newline). -/
def colonDigitTail : List Char → Bool
  | [] => false
  | c :: rest =>
    (c == ':' && (match rest with | d :: _ => d.isDigit | [] => false))
    || (c != '\n' && colonDigitTail rest)

/-- Whether `.+:\d{1,5}` can match a leading part of `l` (existence
only needs the first of the one-to-five digits). -/
def dotPlusColonDigits (l : List Char) : Bool :=
  match l with
  | [] => false
  | c :: rest => c != '\n' && colonDigitTail rest

/-- Whether `(https?|socks(4|5)?):\/\/.+:\d{1,5}` matches starting
exactly at the head of `l`. -/
def schemeMatchHere (l : List Char) : Bool :=
  proxySchemes.any (fun sch =>
    (sch ++ "://".data).isPrefixOf l && dotPlusColonDigits (l.drop (sch.length + 3)))

/-- Truthiness of
`re.findall(r"(https?|socks(4|5)?):\/\/.+:\d{1,5}", s)`: the pattern
matches somewhere in the string. -/
def regexSearch : List Char → Bool
  | [] => false
  | l@(_ :: rest) => schemeMatchHere l || regexSearch rest

/-- The proxy check of the validation block. -/
def proxyFormatOk (s : String) : Bool :=
  regexSearch s.data

/-- The validation block of `ChatGPT.__init__` (the five checks that
raise `ValueError`), evaluated in source order; `none` means the block
passes. -/
def validateConfig (c : Config) : Option ConfigError :=
  if !pyTruthy c.sessionToken &&
      (!pyTruthy c.email || !pyTruthy c.password || !pyTruthy c.authType) then
    some .missingCredentials
  else if !(c.authType == none || c.authType == some "google"
      || c.authType == some "microsoft" || c.authType == some "openai") then
    some .invalidAuthType
  else if !(c.captchaSolver == none || c.captchaSolver == some "pypasser"
      || c.captchaSolver == some "2captcha") then
    some .invalidCaptchaSolver
  else if c.captchaSolver == some "2captcha" && c.solverApikey == "" then
    some .missingSolverApikey
  else if pyTruthy c.proxy && !proxyFormatOk (c.proxy.getD "") then
    some .invalidProxyFormat
  else
    none

/-- The constructor, up to the end of its validation block: a raised
`ValueError` aborts construction and surfaces to the caller. -/
def initChatGPT (c : Config) : Except ConfigError Unit :=
  match validateConfig c with
  | some e => .error e
  | none => .ok ()

/-! ### Conversation operations (`change_conversation`,
`delete_conversation`) -/

/-- The state these operations touch: `self.__conversation_id`. -/
structure ChatState where
  conversationId : String
  deriving Repr, DecidableEq

/-- Observable side effects of the conversation operations. -/
inductive Effect
  | nav (url : String)
  | capacityCheck (url : String)
  | dismissBlocking
  | screenshot (file : String)
  | logMsg (msg : String)
  deriving Repr, DecidableEq

/-- Outcome of the `try` body of `change_conversation` /
`delete_conversation`: `notFound = true` models a
`NoSuchElementException` raised inside the body (conversation missing,
delete button missing). -/
def tryOutcome (notFound : Bool) : Except String Unit :=
  if notFound then .error "NoSuchElementException" else .ok ()

/-- `ChatGPT.change_conversation(conversation_id)`: returns the status
dict, the updated state, and the effect trace.  When the requested id
equals the stored one, the function returns at once, before the `try`
block; a `NoSuchElementException` inside the body is caught, logged,
turned into a screenshot and the status dict
`{"message": "Conversation not found"}`, and the stored id is left
unchanged. -/
def changeConversation (st : ChatState) (notFound : Bool) (cid : String) :
    List (String × String) × ChatState × List Effect :=
  if st.conversationId == cid then
    ([("message", "Already in conversation")], st,
      [.logMsg "Already in conversation"])
  else
    match tryOutcome notFound with
    | .ok _ =>
      ([("message", "Changed Successfully")], { st with conversationId := cid },
        [.logMsg "Changing conversation...",
         .nav ("https://chat.openai.com/c/" ++ cid),
         .capacityCheck ("https://chat.openai.com/c/" ++ cid),
         .dismissBlocking])
    | .error _ =>
      ([("message", "Conversation not found")], st,
        [.logMsg "Changing conversation...",
         .logMsg "Conversation not found",
         .screenshot "change_conversation_failed.png"])

/-- `ChatGPT.delete_conversation()`: every `return` statement of the
Python method returns `self.logger.debug(...)`, which is `None`, so
the returned value (the first component) is always `none`; the status
text only reaches the log.  A `NoSuchElementException` while locating
the delete or confirmation button is caught and logged, and the stored
id is left unchanged; on success the stored id is cleared. -/
def deleteConversation (st : ChatState) (notFound : Bool) :
    Option String × ChatState × List Effect :=
  if st.conversationId == "" then
    (none, st, [.logMsg "No conversation to delete"])
  else
    match tryOutcome notFound with
    | .ok _ =>
      (none, { st with conversationId := "" }, [.logMsg "Conversation Deleted"])
    | .error _ =>
      (none, st, [.logMsg "Conversation not Deleted"])

end PyChatGPT

namespace PyChatGPT

example : strContains "text-red" "foo text-red bar" = true := by decide
example : strContains "text-red" "None" = false := by decide
example : recoverConversationId
    ["https://x.y/z",
     "https://chat.openai.com/backend-api/conversation/gen_title/abc-123"] = "abc-123" := by
  decide
example : pyReplace "xCopy code`y" "Copy code`" "`" = "x`y" := by decide
example : streamMessage "" [⟨true, none, "", ["a"]⟩, ⟨false, none, "", ["ab"]⟩]
    = .ok ["a", "b"] := by decide
example : sendMessage "id" ⟨.ok (), true, none, "", some "hi", fun s => s, []⟩ [] false
    = .ok [("message", "hi"), ("conversation_id", "id")] := by decide

end PyChatGPT

namespace PyChatGPT

/-! ## Helper lemmas -/

theorem getLast?_eq_some_pollText {p : Poll} (h : p.smallTexts ≠ []) :
    p.smallTexts.getLast? = some (pollText p) := by
  unfold pollText
  rw [List.getLastD_eq_getLast? "" p.smallTexts]
  cases hl : p.smallTexts.getLast? with
  | none => exact absurd (List.getLast?_eq_none_iff.mp hl) h
  | some x => simp

theorem streamMessage_cons (prev : String) (p : Poll) (ps : List Poll)
    (he : errorStyled p.bigClass = false) (hn : p.smallTexts ≠ []) :
    streamMessage prev (p :: ps) =
      if pollText p = prev then
        (if p.streaming then streamMessage prev ps else .ok [])
      else
        (if p.streaming then
          (streamMessage (pollText p) ps).map
            (fun fs => pyDropLen prev (pollText p) :: fs)
        else .ok [pyDropLen prev (pollText p)]) := by
  simp only [streamMessage, he, Bool.false_eq_true, if_false,
    getLast?_eq_some_pollText hn]
  by_cases hc : pollText p = prev <;> simp [hc, beq_iff_eq]

theorem streamMessage_concat_aux :
    ∀ (ps : List Poll) (p : Poll) (prev : String),
      (∀ q ∈ p :: ps, errorStyled q.bigClass = false) →
      (∀ q ∈ p :: ps, q.smallTexts ≠ []) →
      prefixChain (p :: ps) = true →
      stopsAtEnd (p :: ps) = true →
      prev.data <+: (pollText p).data →
      ∃ frags, streamMessage prev (p :: ps) = .ok frags ∧
        prev.data ++ (frags.map String.data).flatten
          = (pollText (lastPoll (p :: ps))).data := by
  intro ps
  induction ps with
  | nil =>
    intro p prev herr hne _ hstop hpre
    have he : errorStyled p.bigClass = false := herr p (List.mem_cons_self p _)
    have hn : p.smallTexts ≠ [] := hne p (List.mem_cons_self p _)
    have hs : p.streaming = false := by
      simpa [stopsAtEnd] using hstop
    rw [streamMessage_cons prev p [] he hn]
    by_cases hc : pollText p = prev
    · refine ⟨[], ?_, ?_⟩
      · simp [hc, hs]
      · simp [lastPoll, ← hc]
    · refine ⟨[pyDropLen prev (pollText p)], ?_, ?_⟩
      · simp [hc, hs]
      · obtain ⟨t, ht⟩ := hpre
        simp [lastPoll, pyDropLen, ← ht, List.drop_left]
  | cons q ps' ih =>
    intro p prev herr hne hchain hstop hpre
    have he : errorStyled p.bigClass = false := herr p (List.mem_cons_self p _)
    have hn : p.smallTexts ≠ [] := hne p (List.mem_cons_self p _)
    simp only [stopsAtEnd, Bool.and_eq_true] at hstop
    obtain ⟨hs, hstop'⟩ := hstop
    simp only [prefixChain, Bool.and_eq_true] at hchain
    obtain ⟨hpq', hchain'⟩ := hchain
    have hpq : (pollText p).data <+: (pollText q).data :=
      List.isPrefixOf_iff_prefix.mp hpq'
    have herr' : ∀ r ∈ q :: ps', errorStyled r.bigClass = false :=
      fun r hr => herr r (List.mem_cons_of_mem _ hr)
    have hne' : ∀ r ∈ q :: ps', r.smallTexts ≠ [] :=
      fun r hr => hne r (List.mem_cons_of_mem _ hr)
    rw [streamMessage_cons prev p (q :: ps') he hn]
    by_cases hc : pollText p = prev
    · obtain ⟨frags, hrun, hcat⟩ :=
        ih q prev herr' hne' hchain' hstop' (hc ▸ hpq)
      refine ⟨frags, ?_, ?_⟩
      · rw [if_pos hc, if_pos hs]
        exact hrun
      · exact hcat
    · obtain ⟨frags, hrun, hcat⟩ :=
        ih q (pollText p) herr' hne' hchain' hstop' hpq
      refine ⟨pyDropLen prev (pollText p) :: frags, ?_, ?_⟩
      · rw [if_neg hc, if_pos hs, hrun]
        rfl
      · obtain ⟨t, ht⟩ := hpre
        have hd : prev.data ++ (pollText p).data.drop prev.data.length
            = (pollText p).data := by
          rw [← ht, List.drop_left]
        calc prev.data ++ ((pyDropLen prev (pollText p) :: frags).map
                String.data).flatten
            = prev.data ++ ((pollText p).data.drop prev.data.length
                ++ (frags.map String.data).flatten) := by
              simp [pyDropLen]
          _ = (prev.data ++ (pollText p).data.drop prev.data.length)
                ++ (frags.map String.data).flatten := by
              rw [List.append_assoc]
          _ = (pollText p).data ++ (frags.map String.data).flatten := by
              rw [hd]
          _ = (pollText (lastPoll (q :: ps'))).data := hcat

end PyChatGPT

namespace PyChatGPT

/-! ## C1: Response Watcher fragment concatenation -/

/-- **C1** (amended).  For every finite trace of polled
rendered-response texts forming a prefix chain, with no poll carrying
the error style and the streaming marker present on every poll but the
last, the fragments yielded by `__stream_message` concatenate exactly
to the final text in full (the watcher's initial watermark is the
empty string, so the first poll's whole text is emitted, not just the
extension beyond it); and a poll whose text equals the previously
observed text yields no fragment. -/
theorem streamMessage_concat_full_final :
    (∀ polls : List Poll, polls ≠ [] →
      (∀ q ∈ polls, errorStyled q.bigClass = false) →
      (∀ q ∈ polls, q.smallTexts ≠ []) →
      prefixChain polls = true →
      stopsAtEnd polls = true →
      ∃ frags, streamMessage "" polls = .ok frags ∧
        concatFrags frags = pollText (lastPoll polls)) ∧
    (∀ (prev : String) (p : Poll) (ps : List Poll),
      errorStyled p.bigClass = false →
      p.smallTexts ≠ [] →
      pollText p = prev →
      streamMessage prev (p :: ps) =
        if p.streaming then streamMessage prev ps else .ok []) := by
  constructor
  · intro polls hne herr hnee hchain hstop
    match polls, hne with
    | p :: ps, _ =>
      obtain ⟨frags, hrun, hcat⟩ :=
        streamMessage_concat_aux ps p "" herr hnee hchain hstop
          List.nil_prefix
      refine ⟨frags, hrun, ?_⟩
      apply String.ext
      simpa [concatFrags] using hcat
  · intro prev p ps he hn hc
    rw [streamMessage_cons prev p ps he hn, if_pos hc]

/-- Witness for C1 at the trace `["a", "ab"]`: the fragments are
`["a", "b"]` and they concatenate to the full final text `"ab"`. -/
theorem streamMessage_concat_full_final_witness :
    streamMessage "" [⟨true, none, "", ["a"]⟩, ⟨false, none, "", ["ab"]⟩]
        = .ok ["a", "b"] ∧
    concatFrags ["a", "b"]
        = pollText (lastPoll
            [⟨true, none, "", ["a"]⟩, ⟨false, none, "", ["ab"]⟩]) := by
  obtain ⟨frags, hrun, hcat⟩ :=
    streamMessage_concat_full_final.1
      [⟨true, none, "", ["a"]⟩, ⟨false, none, "", ["ab"]⟩]
      (by decide) (by decide) (by decide) (by decide) (by decide)
  have h2 : streamMessage ""
      [⟨true, none, "", ["a"]⟩, ⟨false, none, "", ["ab"]⟩]
        = .ok ["a", "b"] := by decide
  rw [h2] at hrun
  injection hrun with h
  subst h
  exact ⟨h2, hcat⟩

/-- **C1** counterexample to the claim as stated: on the prefix chain
`S0 = "a"`, `S1 = "ab"` the watcher yields `["a", "b"]`, which
concatenates to the whole final text `"ab"`, not to the final text
minus the initial text (`"b"`). -/
theorem streamMessage_concat_counterexample :
    streamMessage "" [⟨true, none, "", ["a"]⟩, ⟨false, none, "", ["ab"]⟩]
        = .ok ["a", "b"] ∧
    concatFrags ["a", "b"] = "ab" ∧
    pyDropLen "a" "ab" = "b" ∧
    ("ab" : String) ≠ "b" := by decide

end PyChatGPT

namespace PyChatGPT

/-! ## C2: Challenge Gate retry budget -/

/-- When the challenge marker clears on the current attempt, the gate
makes no further attempt: one unfolding of `ensureCf`, independent of
the remaining budget. -/
theorem ensureCf_clears (env : CfEnv) (N : Nat) (b : Browser)
    (h : env.clears N = true) :
    ensureCf env N b =
      (1, if !env.sessionOk && !env.authConfigured then
            .error (.invalidSession, newTab b)
          else if !env.sessionOk then
            match loginTab env (newTab b) with
            | .ok b2 => .ok (switchTo (closeTab b2) b.current)
            | .error e => .error e
          else .ok (switchTo (closeTab (newTab b)) b.current)) := by
  cases N <;> simp [ensureCf, h] <;> (repeat' split) <;> rfl

/-- **C2** (confirmed).  With retry budget `N`, when the challenge
marker never disappears within the per-attempt bound, `__ensure_cf`
performs exactly `N + 1` challenge attempts and then raises
`ValueError("Cloudflare challenge failed")`; and whenever the marker is
absent on the first attempt, it proceeds past the challenge after
exactly one attempt, without retrying. -/
theorem ensureCf_attempt_count :
    (∀ (env : CfEnv) (N : Nat) (b : Browser),
      (∀ k, env.clears k = false) →
      ∃ b', ensureCf env N b = (N + 1, .error (.challengeFailed, b'))) ∧
    (∀ (env : CfEnv) (N : Nat) (b : Browser),
      env.clears N = true →
      (ensureCf env N b).1 = 1) := by
  constructor
  · intro env N
    induction N with
    | zero =>
      intro b hall
      refine ⟨newTab b, ?_⟩
      simp [ensureCf, hall 0]
    | succ n ih =>
      intro b hall
      obtain ⟨b', hb'⟩ := ih (switchTo (closeTab (newTab b)) b.current) hall
      refine ⟨b', ?_⟩
      simp [ensureCf, hall (n + 1), hb']
  · intro env N b h
    rw [ensureCf_clears env N b h]

/-- Witness for C2: with `clears` identically false and budget 2 the
gate makes 3 attempts; with the marker absent it makes exactly 1. -/
theorem ensureCf_attempt_count_witness :
    (ensureCf ⟨fun _ => false, true, true, true⟩ 2 ⟨[0], 0, 1⟩).1 = 3 ∧
    (ensureCf ⟨fun _ => true, true, true, true⟩ 2 ⟨[0], 0, 1⟩).1 = 1 := by
  constructor
  · obtain ⟨b', hb'⟩ :=
      ensureCf_attempt_count.1 ⟨fun _ => false, true, true, true⟩ 2
        ⟨[0], 0, 1⟩ (fun _ => rfl)
    rw [hb']
  · exact ensureCf_attempt_count.2 ⟨fun _ => true, true, true, true⟩ 2
      ⟨[0], 0, 1⟩ rfl

end PyChatGPT

namespace PyChatGPT

/-! ## C3: Challenge Gate window discipline -/

theorem filter_bne_of_not_mem {l : List Nat} {n : Nat} (h : n ∉ l) :
    (l ++ [n]).filter (fun x => x != n) = l := by
  have h1 : l.filter (fun x => x != n) = l := by
    rw [List.filter_eq_self]
    intro a ha
    simp only [bne_iff_ne, ne_eq]
    exact fun he => h (he ▸ ha)
  simp [List.filter_append, h1]

theorem next_not_mem {b : Browser} (hwf : BrowserWF b) :
    b.next ∉ b.handles :=
  fun hm => lt_irrefl _ (hwf.1 _ hm)

theorem newTab_wf {b : Browser} (hwf : BrowserWF b) : BrowserWF (newTab b) := by
  constructor
  · intro x hx
    simp only [newTab, List.mem_append, List.mem_singleton] at hx
    rcases hx with hx | rfl
    · exact Nat.lt_succ_of_lt (hwf.1 _ hx)
    · exact Nat.lt_succ_self _
  · simp [newTab]

theorem closeTab_newTab_eq {b : Browser} (hwf : BrowserWF b) :
    closeTab (newTab b) = ⟨b.handles, b.next, b.next + 1⟩ := by
  simp [closeTab, newTab, filter_bne_of_not_mem (next_not_mem hwf)]

/-- The non-retrying part of the window discipline: when the challenge
clears on this attempt, a normal return restores the original handles
and selected window, while a raise (invalid session, failed login)
leaves the selection on a freshly opened tab and at least one extra
tab open. -/
theorem ensureCf_cleared_discipline (env : CfEnv) (N : Nat) (b : Browser)
    (hwf : BrowserWF b) (h : env.clears N = true) :
    (∀ b', (ensureCf env N b).2 = .ok b' →
      b'.handles = b.handles ∧ b'.current = b.current) ∧
    (∀ e b', (ensureCf env N b).2 = .error (e, b') →
      b.handles <+: b'.handles ∧ b'.handles ≠ b.handles ∧
      b'.current ∉ b.handles) := by
  have hnm := next_not_mem hwf
  have e1 : closeTab (newTab (newTab b))
      = ⟨(newTab b).handles, (newTab b).next, (newTab b).next + 1⟩ :=
    closeTab_newTab_eq (newTab_wf hwf)
  have e2 : switchTo (closeTab (newTab (newTab b))) (newTab b).current
      = (⟨b.handles ++ [b.next], b.next, b.next + 2⟩ : Browser) := by
    rw [e1]
    simp [newTab, switchTo]
  have e3 : closeTab (⟨b.handles ++ [b.next], b.next, b.next + 2⟩ : Browser)
      = ⟨b.handles, b.next, b.next + 2⟩ := by
    simp [closeTab, filter_bne_of_not_mem hnm]
  have hlen1 : (b.handles ++ [b.next]) ≠ b.handles := by
    intro heq
    have := congrArg List.length heq
    simp at this
  have hlen2 : (b.handles ++ [b.next] ++ [b.next + 1]) ≠ b.handles := by
    intro heq
    have := congrArg List.length heq
    simp at this
  rw [ensureCf_clears env N b h]
  by_cases h1 : env.sessionOk
  · constructor
    · intro b' hb'
      simp only [h1, Bool.not_true, Bool.false_and, Bool.false_eq_true,
        if_false] at hb'
      injection hb' with hb'
      rw [← hb']
      exact ⟨by rw [closeTab_newTab_eq hwf]; rfl, rfl⟩
    · intro e b' hb'
      simp [h1] at hb'
  · by_cases h2 : env.authConfigured
    · by_cases h3 : env.loginOk
      · constructor
        · intro b' hb'
          simp only [loginTab, h1, h2, h3, Bool.not_true, Bool.not_false,
            Bool.true_and, Bool.false_and, Bool.and_false, if_true, if_false,
            Bool.false_eq_true, Bool.true_eq_false] at hb'
          rw [e2] at hb'
          injection hb' with hb'
          rw [← hb']
          exact ⟨by rw [e3]; rfl, rfl⟩
        · intro e b' hb'
          simp [loginTab, h1, h2, h3] at hb'
      · constructor
        · intro b' hb'
          simp [loginTab, h1, h2, h3] at hb'
        · intro e b' hb'
          simp [loginTab, h1, h2, h3] at hb'
          obtain ⟨-, hb'⟩ := hb'
          rw [← hb']
          refine ⟨?_, ?_, ?_⟩
          · show b.handles <+: b.handles ++ [b.next] ++ [b.next + 1]
            rw [List.append_assoc]
            exact List.prefix_append _ _
          · show b.handles ++ [b.next] ++ [b.next + 1] ≠ b.handles
            exact hlen2
          · show b.next + 1 ∉ b.handles
            intro hm
            have := hwf.1 _ hm
            omega
    · constructor
      · intro b' hb'
        simp [h1, h2] at hb'
      · intro e b' hb'
        simp [h1, h2] at hb'
        obtain ⟨-, hb'⟩ := hb'
        rw [← hb']
        exact ⟨List.prefix_append _ _, hlen1, hnm⟩

end PyChatGPT

namespace PyChatGPT

/-- **C3** (amended).  Given a well-formed window state, `__ensure_cf`
restores the original browsing context only on the exit paths that
return normally (challenge passed with a valid session, or after a
successful interactive login): there the extra tab is closed and the
originally current handle is current again.  On every raising exit
path (challenge failure after exhausted retries, invalid session,
failed interactive login) the selected window is a freshly opened tab
that was not among the original handles, and at least one extra tab is
left open. -/
theorem ensureCf_window_discipline :
    ∀ (env : CfEnv) (retry : Nat) (b : Browser), BrowserWF b →
      (∀ b', (ensureCf env retry b).2 = .ok b' →
        b'.handles = b.handles ∧ b'.current = b.current) ∧
      (∀ e b', (ensureCf env retry b).2 = .error (e, b') →
        b.handles <+: b'.handles ∧ b'.handles ≠ b.handles ∧
        b'.current ∉ b.handles) := by
  intro env retry
  induction retry with
  | zero =>
    intro b hwf
    by_cases hc : env.clears 0 = true
    · exact ensureCf_cleared_discipline env 0 b hwf hc
    · constructor
      · intro b' hb'
        simp [ensureCf, hc] at hb'
      · intro e b' hb'
        simp [ensureCf, hc] at hb'
        obtain ⟨-, hb'⟩ := hb'
        rw [← hb']
        refine ⟨List.prefix_append _ _, ?_, next_not_mem hwf⟩
        intro heq
        have := congrArg List.length heq
        simp [newTab] at this
  | succ r ih =>
    intro b hwf
    by_cases hc : env.clears (r + 1) = true
    · exact ensureCf_cleared_discipline env (r + 1) b hwf hc
    · have hb2 : switchTo (closeTab (newTab b)) b.current
          = (⟨b.handles, b.current, b.next + 1⟩ : Browser) := by
        rw [closeTab_newTab_eq hwf]
        rfl
      have hwf2 : BrowserWF (⟨b.handles, b.current, b.next + 1⟩ : Browser) :=
        ⟨fun x hx => Nat.lt_succ_of_lt (hwf.1 x hx), hwf.2⟩
      have hrec := ih ⟨b.handles, b.current, b.next + 1⟩ hwf2
      constructor
      · intro b' hb'
        refine hrec.1 b' ?_
        rw [← hb2]
        simpa [ensureCf, hc] using hb'
      · intro e b' hb'
        refine hrec.2 e b' ?_
        rw [← hb2]
        simpa [ensureCf, hc] using hb'

/-- Witness for C3 (amended): a successful run restores handle 0 and
the single open tab, while a challenge-failed run ends selected on the
fresh handle 1 with the tab list grown to `[0, 1]`. -/
theorem ensureCf_window_discipline_witness :
    ((⟨[0], 0, 2⟩ : Browser).handles = (⟨[0], 0, 1⟩ : Browser).handles ∧
     (⟨[0], 0, 2⟩ : Browser).current = (⟨[0], 0, 1⟩ : Browser).current) ∧
    ((⟨[0], 0, 1⟩ : Browser).handles <+: (⟨[0, 1], 1, 2⟩ : Browser).handles ∧
     (⟨[0, 1], 1, 2⟩ : Browser).handles ≠ (⟨[0], 0, 1⟩ : Browser).handles ∧
     (⟨[0, 1], 1, 2⟩ : Browser).current ∉ (⟨[0], 0, 1⟩ : Browser).handles) := by
  constructor
  · exact (ensureCf_window_discipline ⟨fun _ => true, true, true, true⟩ 0
      ⟨[0], 0, 1⟩ (by constructor <;> decide)).1 ⟨[0], 0, 2⟩ (by decide)
  · exact (ensureCf_window_discipline ⟨fun _ => false, true, true, true⟩ 0
      ⟨[0], 0, 1⟩ (by constructor <;> decide)).2 .challengeFailed
      ⟨[0, 1], 1, 2⟩ (by decide)

/-- **C3** counterexample to the claim as stated: with retry budget 0
and a challenge that never clears, `__ensure_cf` raises with the extra
tab still open (`[0, 1]` instead of `[0]`) and with the fresh tab
handle 1, not the original handle 0, still selected — the original
browsing context is not restored on this exit path. -/
theorem ensureCf_not_restored_counterexample :
    ensureCf ⟨fun _ => false, true, true, true⟩ 0 ⟨[0], 0, 1⟩
        = (1, .error (.challengeFailed, ⟨[0, 1], 1, 2⟩)) ∧
    (1 : Nat) ≠ 0 ∧ ([0, 1] : List Nat) ≠ [0] := by decide

end PyChatGPT

namespace PyChatGPT

/-! ## C4: shape of the value returned by send_message -/

/-- **C4** (amended).  When the gate passes, the streaming marker
clears and the response is not error-styled, the non-streamed
`send_message` returns a dict with exactly the keys `"message"` and
`"conversation_id"`; the streamed variant, however, prints the
fragments and returns the empty dict `{}` — it does not return the
response text or the conversation id. -/
theorem sendMessage_return_shape :
    (∀ (convId : String) (env : SendEnv) (polls : List Poll),
      env.cf = .ok () → env.streamCleared = true →
      errorStyled env.bigClass = false →
      ∃ m c, sendMessage convId env polls false
        = .ok [("message", m), ("conversation_id", c)]) ∧
    (∀ (convId : String) (env : SendEnv) (polls : List Poll)
        (frags : List String),
      env.cf = .ok () → streamMessage "" polls = .ok frags →
      sendMessage convId env polls true = .ok []) := by
  constructor
  · intro convId env polls hcf hclear herr
    refine ⟨(match env.smallInner with
        | some inner => pyReplace (env.md inner) "Copy code`" "`"
        | none => ""),
      (if convId == "" then recoverConversationId env.logUrls else convId), ?_⟩
    simp [sendMessage, hcf, hclear, herr]
  · intro convId env polls frags hcf hfr
    simp [sendMessage, hcf, hfr]

/-- Witness for C4 (amended), at a concrete environment with
`markdownify` the identity: the non-streamed call returns both keys,
the streamed call returns the empty dict. -/
theorem sendMessage_return_shape_witness :
    sendMessage "id7" ⟨.ok (), true, none, "", some "hi", fun s => s, []⟩
        [⟨false, none, "", ["hi"]⟩] false
      = .ok [("message", "hi"), ("conversation_id", "id7")] ∧
    sendMessage "id7" ⟨.ok (), true, none, "", some "hi", fun s => s, []⟩
        [⟨false, none, "", ["hi"]⟩] true
      = .ok [] := by
  constructor
  · obtain ⟨m, c, hmc⟩ := sendMessage_return_shape.1 "id7"
      ⟨.ok (), true, none, "", some "hi", fun s => s, []⟩
      [⟨false, none, "", ["hi"]⟩] rfl rfl rfl
    have h2 : sendMessage "id7"
        ⟨.ok (), true, none, "", some "hi", fun s => s, []⟩
        [⟨false, none, "", ["hi"]⟩] false
        = .ok [("message", "hi"), ("conversation_id", "id7")] := by decide
    exact h2
  · exact sendMessage_return_shape.2 "id7"
      ⟨.ok (), true, none, "", some "hi", fun s => s, []⟩
      [⟨false, none, "", ["hi"]⟩] ["hi"] rfl (by decide)

/-- **C4** counterexample to the claim as stated: the streamed variant
returns the empty dict, which contains neither the response text nor
the conversation id. -/
theorem sendMessage_stream_empty_counterexample :
    sendMessage "id7" ⟨.ok (), true, none, "", some "hi", fun s => s, []⟩
        [⟨false, none, "", ["hi"]⟩] true
      = .ok [] ∧
    ([] : List (String × String)).lookup "message" = none ∧
    ([] : List (String × String)).lookup "conversation_id" = none := by
  decide

/-! ## C5: error-styled responses raise, never complete -/

/-- **C5** (confirmed).  Whenever the last big-response element
carries the error style (`"text-red"` in its class attribute), the
send path raises `ValueError` with the displayed text instead of
completing: in the non-streamed `send_message` path (where the
120-second wait has already seen the streaming marker disappear), in
`__stream_message` on any poll — including one on which the streaming
marker is already gone — and hence in the streamed `send_message`
path as well. -/
theorem sendMessage_error_styled_raises :
    (∀ (convId : String) (env : SendEnv) (polls : List Poll),
      env.cf = .ok () → env.streamCleared = true →
      errorStyled env.bigClass = true →
      sendMessage convId env polls false = .error env.bigText) ∧
    (∀ (prev : String) (p : Poll) (ps : List Poll),
      errorStyled p.bigClass = true →
      streamMessage prev (p :: ps) = .error p.bigText) ∧
    (∀ (convId : String) (env : SendEnv) (p : Poll) (ps : List Poll),
      env.cf = .ok () → errorStyled p.bigClass = true →
      sendMessage convId env (p :: ps) true = .error p.bigText) := by
  refine ⟨?_, ?_, ?_⟩
  · intro convId env polls hcf hclear herr
    simp [sendMessage, hcf, hclear, herr]
  · intro prev p ps herr
    simp [streamMessage, herr]
  · intro convId env p ps hcf herr
    simp [sendMessage, streamMessage, hcf, herr]

/-- Witness for C5, on a poll whose streaming marker is already gone
(`streaming = false`) and whose big response is error-styled with text
`"Oops"`. -/
theorem sendMessage_error_styled_raises_witness :
    sendMessage "id" ⟨.ok (), true, some "text-red-500", "Oops", none,
        fun s => s, []⟩ [] false
      = .error "Oops" ∧
    streamMessage "" [⟨false, some "text-red-500", "Oops", ["x"]⟩]
      = .error "Oops" ∧
    sendMessage "id" ⟨.ok (), true, none, "", none, fun s => s, []⟩
        [⟨false, some "text-red-500", "Oops", ["x"]⟩] true
      = .error "Oops" := by
  refine ⟨?_, ?_, ?_⟩
  · exact sendMessage_error_styled_raises.1 "id"
      ⟨.ok (), true, some "text-red-500", "Oops", none, fun s => s, []⟩
      [] rfl rfl (by decide)
  · exact sendMessage_error_styled_raises.2.1 ""
      ⟨false, some "text-red-500", "Oops", ["x"]⟩ [] (by decide)
  · exact sendMessage_error_styled_raises.2.2 "id"
      ⟨.ok (), true, none, "", none, fun s => s, []⟩
      ⟨false, some "text-red-500", "Oops", ["x"]⟩ [] rfl (by decide)

end PyChatGPT

namespace PyChatGPT

/-! ## C6: Capacity Waiter -/

theorem checkCapacity_found_until (found : Nat → Bool) (target : String) :
    ∀ (fuel i n : Nat), (∀ m, m < n → found (i + m) = true) →
      found (i + n) = false → n < fuel →
      checkCapacity found target i fuel = some (List.replicate n target) := by
  intro fuel
  induction fuel with
  | zero => intro i n _ _ h; omega
  | succ f ih =>
    intro i n hall hstop hlt
    cases n with
    | zero =>
      have h0 : found i = false := by simpa using hstop
      simp [checkCapacity, h0]
    | succ m =>
      have h0 : found i = true := by simpa using hall 0 (Nat.succ_pos m)
      have hall' : ∀ k, k < m → found (i + 1 + k) = true := by
        intro k hk
        have := hall (k + 1) (by omega)
        simpa [Nat.add_assoc, Nat.add_comm 1 k] using this
      have hstop' : found (i + 1 + m) = false := by
        have := hstop
        simpa [Nat.add_assoc, Nat.add_comm 1 m] using this
      have := ih (i + 1) m hall' hstop' (by omega)
      simp [checkCapacity, h0, this, List.replicate_succ]

theorem checkCapacity_never_returns (found : Nat → Bool) (target : String)
    (hall : ∀ m, found m = true) :
    ∀ (fuel i : Nat), checkCapacity found target i fuel = none := by
  intro fuel
  induction fuel with
  | zero => intro i; rfl
  | succ f ih => intro i; simp [checkCapacity, hall i, ih (i + 1)]

/-- **C6** (confirmed).  `__check_capacity` returns on the first poll
that does not find the capacity marker within its 3-second bound,
regardless of how many earlier polls found it, and before each
re-poll it re-navigates to the target destination (one `driver.get`
per marker-finding poll); it has no retry limit, so as long as every
poll keeps finding the marker it never returns (for any amount of
fuel the loop is still running). -/
theorem checkCapacity_first_absent_poll :
    (∀ (found : Nat → Bool) (target : String) (n fuel : Nat),
      (∀ m, m < n → found m = true) → found n = false → n < fuel →
      checkCapacity found target 0 fuel = some (List.replicate n target)) ∧
    (∀ (found : Nat → Bool) (target : String) (fuel : Nat),
      (∀ m, found m = true) →
      checkCapacity found target 0 fuel = none) := by
  constructor
  · intro found target n fuel hall hstop hlt
    exact checkCapacity_found_until found target fuel 0 n
      (by simpa using hall) (by simpa using hstop) hlt
  · intro found target fuel hall
    exact checkCapacity_never_returns found target hall fuel 0

/-- Witness for C6: with the marker found on polls 0 and 1 only, the
loop returns at poll 2 after exactly two re-navigations; with the
marker always present it is still looping after 7 polls. -/
theorem checkCapacity_first_absent_poll_witness :
    checkCapacity (fun i => decide (i < 2)) "https://chat.openai.com/chat" 0 5
      = some (List.replicate 2 "https://chat.openai.com/chat") ∧
    checkCapacity (fun _ => true) "https://chat.openai.com/chat" 0 7
      = none := by
  constructor
  · exact checkCapacity_first_absent_poll.1 (fun i => decide (i < 2))
      "https://chat.openai.com/chat" 2 5
      (fun m hm => by simp; omega) (by decide) (by decide)
  · exact checkCapacity_first_absent_poll.2 (fun _ => true)
      "https://chat.openai.com/chat" 7 (fun _ => rfl)

/-! ## C7: Session Keeper schedule -/

theorem keepAlive_times (active : Nat → Bool)
    (deliver : Nat → Except String Unit) :
    ∀ (fuel i n : Nat), (∀ m, m < n → active (i + m) = true) →
      active (i + n) = false → n < fuel →
      keepAlive active deliver i fuel
        = ((List.range n).map (fun j => 60 * (i + j)), true) := by
  intro fuel
  induction fuel with
  | zero => intro i n _ _ h; omega
  | succ f ih =>
    intro i n hall hstop hlt
    cases n with
    | zero =>
      have h0 : active i = false := by simpa using hstop
      simp [keepAlive, h0]
    | succ m =>
      have h0 : active i = true := by simpa using hall 0 (Nat.succ_pos m)
      have hall' : ∀ k, k < m → active (i + 1 + k) = true := by
        intro k hk
        have := hall (k + 1) (by omega)
        simpa [Nat.add_assoc, Nat.add_comm 1 k] using this
      have hstop' : active (i + 1 + m) = false := by
        have := hstop
        simpa [Nat.add_assoc, Nat.add_comm 1 m] using this
      have hrec := ih (i + 1) m hall' hstop' (by omega)
      have hmap : (List.range (m + 1)).map (fun j => 60 * (i + j))
          = 60 * i :: (List.range m).map (fun j => 60 * (i + 1 + j)) := by
        rw [List.range_succ_eq_map]
        simp [List.map_map, Function.comp]
        intro a ha
        omega
      cases hd : deliver i <;>
        simp [keepAlive, h0, hd, hrec, hmap]

theorem keepAlive_runs_while_active (active : Nat → Bool)
    (deliver : Nat → Except String Unit) (hall : ∀ m, active m = true) :
    ∀ (fuel i : Nat), keepAlive active deliver i fuel
      = ((List.range fuel).map (fun j => 60 * (i + j)), false) := by
  intro fuel
  induction fuel with
  | zero => intro i; rfl
  | succ f ih =>
    intro i
    have hmap : (List.range (f + 1)).map (fun j => 60 * (i + j))
        = 60 * i :: (List.range f).map (fun j => 60 * (i + 1 + j)) := by
      rw [List.range_succ_eq_map]
      simp [List.map_map, Function.comp]
      intro a ha
      omega
    cases hd : deliver i <;>
      simp [keepAlive, hall i, hd, ih (i + 1), hmap]

/-- **C7** (confirmed).  `__keep_alive` attempts a liveness delivery at
times 0, 60, 120, ... relative to its start, keeps iterating as long
as the `__is_active` flag is set and stops exactly at the first
iteration that reads the flag cleared — and this holds for every
delivery oracle, because a failed `execute_script` is caught by the
`try`/`except` inside the loop body and neither propagates out of the
loop nor changes which iterations run. -/
theorem keepAlive_schedule :
    (∀ (active : Nat → Bool) (deliver : Nat → Except String Unit)
        (n fuel : Nat),
      (∀ m, m < n → active m = true) → active n = false → n < fuel →
      keepAlive active deliver 0 fuel
        = ((List.range n).map (fun i => 60 * i), true)) ∧
    (∀ (active : Nat → Bool) (deliver : Nat → Except String Unit)
        (fuel : Nat),
      (∀ m, active m = true) →
      keepAlive active deliver 0 fuel
        = ((List.range fuel).map (fun i => 60 * i), false)) := by
  constructor
  · intro active deliver n fuel hall hstop hlt
    have := keepAlive_times active deliver fuel 0 n
      (by simpa using hall) (by simpa using hstop) hlt
    simpa using this
  · intro active deliver fuel hall
    have := keepAlive_runs_while_active active deliver hall fuel 0
    simpa using this

/-- Witness for C7, the spec's scenario: the first three deliveries
fail, yet the loop still makes its attempt at t = 180 and only stops
when the flag clears at iteration 4. -/
theorem keepAlive_schedule_witness :
    keepAlive (fun m => decide (m < 4))
        (fun i => if i < 3 then .error "boom" else .ok ()) 0 10
      = ([0, 60, 120, 180], true) := by
  have h := keepAlive_schedule.1 (fun m => decide (m < 4))
    (fun i => if i < 3 then .error "boom" else .ok ()) 4 10
    (fun m hm => by simp; omega) (by decide) (by decide)
  rw [h]
  decide

end PyChatGPT

namespace PyChatGPT

/-! ## C8: constructor validation -/

/-- **C8** (confirmed).  The validation block of the constructor
raises a `ValueError` exactly on the bad configuration combinations:
no (truthy) session token together with a missing email, password or
auth type; an auth type outside {None, "google", "microsoft",
"openai"}; a captcha solver outside {None, "pypasser", "2captcha"};
solver "2captcha" with an empty API key; and a truthy proxy string not
matched by the `(https?|socks(4|5)?):\/\/.+:\d{1,5}` search.  Each
such failure aborts construction and surfaces to the caller. -/
theorem initChatGPT_config_errors :
    ∀ c : Config,
      (∃ e, initChatGPT c = .error e) ↔
        ((pyTruthy c.sessionToken = false ∧
            (pyTruthy c.email = false ∨ pyTruthy c.password = false ∨
             pyTruthy c.authType = false)) ∨
         c.authType ∉ ([none, some "google", some "microsoft",
            some "openai"] : List (Option String)) ∨
         c.captchaSolver ∉ ([none, some "pypasser", some "2captcha"] :
            List (Option String)) ∨
         (c.captchaSolver = some "2captcha" ∧ c.solverApikey = "") ∨
         (pyTruthy c.proxy = true ∧
            proxyFormatOk (c.proxy.getD "") = false)) := by
  intro c
  have hinit : (∃ e, initChatGPT c = .error e)
      ↔ (validateConfig c).isSome = true := by
    cases hv : validateConfig c <;> simp [initChatGPT, hv]
  rw [hinit]
  unfold validateConfig
  split_ifs with h1 h2 h3 h4 h5 <;>
    simp_all [Bool.and_eq_true, Bool.or_eq_true, Bool.not_eq_true',
      beq_iff_eq, not_or, List.mem_cons, List.not_mem_nil]
  all_goals tauto

/-! ## C9: not-found conditions in conversation operations -/

/-- **C9** (amended).  A `NoSuchElementException` inside
`change_conversation` or `delete_conversation` is caught inside the
operation and logged, and never propagates to the caller;
`change_conversation` converts it into the returned status dict
`{"message": "Conversation not found"}` (plus a diagnostic
screenshot), but `delete_conversation` returns `None` — its status
text `"Conversation not Deleted"` reaches only the log, not the
caller. -/
theorem notFound_caught_and_logged :
    (∀ (st : ChatState) (cid : String), st.conversationId ≠ cid →
      changeConversation st true cid
        = ([("message", "Conversation not found")], st,
           [.logMsg "Changing conversation...",
            .logMsg "Conversation not found",
            .screenshot "change_conversation_failed.png"])) ∧
    (∀ st : ChatState, st.conversationId ≠ "" →
      deleteConversation st true
        = (none, st, [.logMsg "Conversation not Deleted"])) := by
  constructor
  · intro st cid hne
    simp [changeConversation, tryOutcome, hne]
  · intro st hne
    simp [deleteConversation, tryOutcome, hne]

/-- Witness for C9 (amended) on concrete not-found runs. -/
theorem notFound_caught_and_logged_witness :
    changeConversation ⟨"x"⟩ true "y"
      = ([("message", "Conversation not found")], ⟨"x"⟩,
         [.logMsg "Changing conversation...",
          .logMsg "Conversation not found",
          .screenshot "change_conversation_failed.png"]) ∧
    deleteConversation ⟨"x"⟩ true
      = (none, ⟨"x"⟩, [.logMsg "Conversation not Deleted"]) :=
  ⟨notFound_caught_and_logged.1 ⟨"x"⟩ "y" (by decide),
   notFound_caught_and_logged.2 ⟨"x"⟩ (by decide)⟩

/-- **C9** counterexample to the claim as stated: on a missing delete
button, `delete_conversation` returns `None` (every `return` in the
method returns `self.logger.debug(...)`), so the not-found condition
is not converted into a *returned* status message — only
`change_conversation` returns one. -/
theorem deleteConversation_returns_none_counterexample :
    deleteConversation ⟨"abc"⟩ true
      = (none, ⟨"abc"⟩, [Effect.logMsg "Conversation not Deleted"]) := by
  decide

/-! ## C10: change_conversation on the stored id -/

/-- **C10** (confirmed).  When the requested conversation id equals
the stored one, `change_conversation` returns
`{"message": "Already in conversation"}` immediately: no navigation,
no capacity wait, no blocking-element dismissal, and the state —
in particular the stored conversation id — is unchanged. -/
theorem changeConversation_same_id_noop :
    ∀ (st : ChatState) (notFound : Bool) (cid : String),
      st.conversationId = cid →
      changeConversation st notFound cid
        = ([("message", "Already in conversation")], st,
           [.logMsg "Already in conversation"]) := by
  intro st nf cid h
  simp [changeConversation, h]

/-- Witness for C10 at the stored id `"abc"`. -/
theorem changeConversation_same_id_noop_witness :
    changeConversation ⟨"abc"⟩ true "abc"
      = ([("message", "Already in conversation")], ⟨"abc"⟩,
         [.logMsg "Already in conversation"]) :=
  changeConversation_same_id_noop ⟨"abc"⟩ true "abc" rfl

end PyChatGPT
